import Mathlib

/-!
Shallow embedding of the TMCC accessory to WLED bridge (tmcc_wled.py).

Conventions of the embedding:
* Python integers are unbounded, so bytes are modelled as `Int`.
* Python bitwise operations on unbounded integers are translated to
  Euclidean division and remainder, which on `Int` are the `/` and `%` of
  this file (floor division for positive divisors, non-negative remainder
  for positive moduli, exactly Python's `>>` and mask semantics):
  `x & (2^k - 1) = x % 2^k`, `x >> n = x / 2^n`, `x << n = x * 2^n`,
  and `(a << 1) | b = a * 2 + b` whenever `0 ≤ b < 2` (disjoint bits).
* Python strings are modelled as their character sequences (`List Char`).
* JSON payloads handed to the device client are modelled by the inductive
  `Json` below, mirroring the dictionary literals of the source.
* Side effects (HTTP posts, log calls, the simulator transition that sets
  `_running` to `False`) are modelled as an explicit event trace; an
  uncaught Python exception is modelled by an `Option PyExn` component of
  the result.  The background thread of the daylight loop is not modelled;
  only the synchronous behaviour of each call is.
-/

/-- One element of a `"seg"` list in a posted JSON state dictionary.
Every segment dictionary the source builds fits this schema; a key absent
from the dictionary is `none`. -/
structure SegPayload where
  id : Option Int := none
  start : Option Int := none
  stop : Option Int := none
  col : Option (List (List Int)) := none
  fx : Option Int := none
  seg_on : Option Bool := none
  sel : Option Bool := none
deriving DecidableEq, Repr

/-- A JSON state dictionary posted to `/json/state`.  `power` models the
`"on"` key.  Every payload the source posts fits this schema; a key absent
from the dictionary is `none`. -/
structure StatePayload where
  power : Option Bool := none
  bri : Option Int := none
  ps : Option Int := none
  mainseg : Option Int := none
  seg : Option (List SegPayload) := none
deriving DecidableEq, Repr

/-- Result dictionary of `parse_tmcc_switch_or_accessory`. -/
structure ParsedFrame where
  address : Int
  cmd_field : Int
  data_field : Int
  cmd_type : Int
deriving DecidableEq, Repr

/-- `parse_tmcc_switch_or_accessory(packet, cmd_type=None)` from tmcc_wled.py.

Source logic: reject unless the packet is exactly 3 bytes with first byte
`0xFE`; take the frame-type code from bits 7-6 of byte 1 unless an override
is supplied; reject unless it is `0x02` (switch) or `0x03` (accessory);
otherwise return the derived fields
`address = ((b1 & 0x3F) << 1) | ((b2 & 0x80) >> 7)`,
`cmd_field = (b2 & 0x60) >> 5`, `data_field = b2 & 0x1F`,
written below with the `%`/`/` translation of the bit operations. -/
def parse_tmcc_switch_or_accessory (packet : List Int) (cmd_type : Option Int) :
    Option ParsedFrame :=
  match packet with
  | [b0, b1, b2] =>
    if b0 = 0xFE then
      let ct := match cmd_type with
        | none => (b1 / 64) % 4
        | some v => v
      if ct = 2 ∨ ct = 3 then
        some { address := (b1 % 64) * 2 + (b2 / 128) % 2
               cmd_field := (b2 / 32) % 4
               data_field := b2 % 32
               cmd_type := ct }
      else none
    else none
  | _ => none

/-- An RGB triple. -/
abbrev Color := Int × Int × Int

/-- An uncaught Python exception escaping to the caller. -/
inductive PyExn where
  | valueError
deriving DecidableEq, Repr

/-- Observable side effects of a call, in program order: a device post via
`WLEDClient.post_state`, the write `_running = False` inside
`DaylightCycle.stop` (the transition to Stopped), and log calls. -/
inductive Event where
  | post (payload : StatePayload)
  | simStop
  | warn (msg : List Char)
  | info (msg : List Char)
deriving DecidableEq, Repr

/-- Payload `{"on": True}`. -/
def onTruePayload : StatePayload := { power := some true }

/-- Payload `{"on": False}`. -/
def onFalsePayload : StatePayload := { power := some false }

/-- Payload `{"on": True, "bri": 255, "seg": [{"id": 0, "col": [[255, 255, 255]]}]}`. -/
def fullWhitePayload : StatePayload :=
  { power := some true
    bri := some 255
    seg := some [{ id := some 0, col := some [[255, 255, 255]] }] }

/-- Payload `{"seg": [{"id": 0, "col": [[r, g, b]]}]}`. -/
def colorPayload (r g b : Int) : StatePayload :=
  { seg := some [{ id := some 0, col := some [[r, g, b]] }] }

/-- Payload `{"bri": v}`. -/
def briPayload (v : Int) : StatePayload := { bri := some v }

/-- Payload `{"ps": p}`. -/
def psPayload (p : Int) : StatePayload := { ps := some p }

/-- The baseline full-strip payload posted by `DaylightCycle.start`:
`{"on": True, "mainseg": 0, "seg": [{"id": 0, "start": 0, "stop": led_count, "on": True}]}`. -/
def daylightInitPayload (led_count : Int) : StatePayload :=
  { power := some true
    mainseg := some 0
    seg := some [{ id := some 0, start := some 0, stop := some led_count,
                   seg_on := some true }] }

/-- Log message of `DaylightCycle.start` (formatted duration omitted). -/
def startedMsg : List Char := "Daylight cycle started".data

/-- Log message of `DaylightCycle.stop`. -/
def stoppedMsg : List Char := "Daylight cycle stopped".data

/-- Warning for daylight actions without a configured simulator. -/
def notConfiguredMsg : List Char := "Daylight cycle not configured".data

/-- Warning head of the invalid-color branch. -/
def invalidColorMsg : List Char := "Invalid color format: ".data

/-- Warning head of the invalid-brightness branch. -/
def invalidBrightnessMsg : List Char := "Invalid brightness action: ".data

/-- Warning head of the invalid-preset branch. -/
def invalidPresetMsg : List Char := "Invalid preset action: ".data

/-- Warning of the cycle action with an empty preset list. -/
def noPresetsMsg : List Char := "No pattern_presets configured for cycle action".data

/-- Log head of a successful cycle action. -/
def cycledMsg : List Char := "WLED cycled to preset ".data

/-- Warning head of the fallthrough branch. -/
def unhandledMsg : List Char := "Unhandled WLED action: ".data

/-- The `DaylightCycle` object state relevant to the claims: configuration
of the baseline post plus the `_running` flag.  Wall-clock timing, the
background thread object and the cycle counter are not modelled. -/
structure DaylightCycle where
  led_count : Int
  moon_start : Int
  moon_length : Int
  running : Bool
deriving DecidableEq, Repr

/-- `DaylightCycle.start`: no-op when already running; otherwise post the
baseline full-strip payload, set `_running = True` and launch the loop
thread (the thread itself is not modelled). -/
def DaylightCycle.start (d : DaylightCycle) : DaylightCycle × List Event :=
  if d.running then (d, [])
  else
    ({ d with running := true },
     [Event.post (daylightInitPayload d.led_count), Event.info startedMsg])

/-- `DaylightCycle.stop`: set `_running = False` (the `Event.simStop`
transition), join the thread with a bounded timeout (not modelled), log. -/
def DaylightCycle.stop (d : DaylightCycle) : DaylightCycle × List Event :=
  ({ d with running := false }, [Event.simStop, Event.info stoppedMsg])

/-- The `WLEDController` object state: the action mapping, the preset list
and cursor, and the optional daylight simulator.  The `WLEDClient` holds
only immutable connection parameters and is omitted. -/
structure WLEDController where
  mapping : List ((Int × Int) × List Char)
  pattern_presets : List Int
  pattern_index : Nat
  daylight : Option DaylightCycle
deriving DecidableEq, Repr

/-- `WLEDController.__init__`: store the mapping, `pattern_presets or []`
and a zero cursor; when `daylight_cycle` is set, construct the simulator
and `start()` it immediately, before the constructor returns.  The returned
event list is the trace of the constructor call. -/
def WLEDController.init (mapping : List ((Int × Int) × List Char))
    (pattern_presets : Option (List Int)) (daylight_cycle : Bool)
    (led_count moon_start moon_length : Int) : WLEDController × List Event :=
  let base : WLEDController :=
    { mapping := mapping
      pattern_presets := pattern_presets.getD []
      pattern_index := 0
      daylight := none }
  if daylight_cycle then
    let d0 : DaylightCycle :=
      { led_count := led_count
        moon_start := moon_start
        moon_length := moon_length
        running := false }
    let r := d0.start
    ({ base with daylight := some r.1 }, r.2)
  else (base, [])

/-- Python `s.startswith(pre)` on character sequences. -/
def strStartsWith (s pre : List Char) : Bool :=
  match pre, s with
  | [], _ => true
  | _ :: _, [] => false
  | p :: ps, c :: cs => p = c && strStartsWith cs ps

/-- Python `s.split(":", 1)[1]` for a string containing a colon: everything
after the first colon. -/
def afterFirstColon (s : List Char) : List Char :=
  (s.dropWhile (fun c => c ≠ ':')).drop 1

/-- Value of one hexadecimal digit, case-insensitive. -/
def hexDigitVal (c : Char) : Option Nat :=
  if '0' ≤ c ∧ c ≤ '9' then some (c.toNat - '0'.toNat)
  else if 'a' ≤ c ∧ c ≤ 'f' then some (c.toNat - 'a'.toNat + 10)
  else if 'A' ≤ c ∧ c ≤ 'F' then some (c.toNat - 'A'.toNat + 10)
  else none

/-- Python `int(s, 16)`: `none` models the `ValueError` raised on a string
that is not a hexadecimal numeral.  (Python additionally tolerates
surrounding whitespace, a sign and digit-group underscores; no action
string in this program produces those forms.) -/
def pyIntHex (cs : List Char) : Option Nat :=
  match cs with
  | [] => none
  | _ :: _ => cs.foldl (fun acc c =>
      match acc, hexDigitVal c with
      | some a, some d => some (a * 16 + d)
      | _, _ => none) (some 0)

/-- Value of one decimal digit. -/
def digitVal (c : Char) : Option Nat :=
  if '0' ≤ c ∧ c ≤ '9' then some (c.toNat - '0'.toNat) else none

/-- Decimal value of a nonempty digit string. -/
def decDigitsVal (cs : List Char) : Option Nat :=
  match cs with
  | [] => none
  | _ :: _ => cs.foldl (fun acc c =>
      match acc, digitVal c with
      | some a, some d => some (a * 10 + d)
      | _, _ => none) (some 0)

/-- Python `int(s)`: `none` models the `ValueError` raised on a string that
is not a decimal numeral (same tolerance remark as for `pyIntHex`). -/
def pyInt (cs : List Char) : Option Int :=
  match cs with
  | '-' :: rest => (decDigitsVal rest).map (fun n => -(n : Int))
  | '+' :: rest => (decDigitsVal rest).map (fun n => (n : Int))
  | _ => (decDigitsVal cs).map (fun n => (n : Int))

/-- Result of `WLEDController.apply_action`: the controller state after the
call, the event trace in program order, and the exception escaping to the
caller, if any. -/
structure ApplyResult where
  ctrl : WLEDController
  events : List Event
  err : Option PyExn := none
deriving DecidableEq, Repr

/-- Action string `"on"`. -/
def onAct : List Char := "on".data

/-- Action string `"off"`. -/
def offAct : List Char := "off".data

/-- Action string `"full_white"`. -/
def fullWhiteAct : List Char := "full_white".data

/-- Action string `"daylight_start"`. -/
def daylightStartAct : List Char := "daylight_start".data

/-- Action string `"daylight_stop"`. -/
def daylightStopAct : List Char := "daylight_stop".data

/-- Action head `"color:"`. -/
def colorPre : List Char := "color:".data

/-- Action head `"brightness:"`. -/
def brightnessPre : List Char := "brightness:".data

/-- Action head `"preset:"`. -/
def presetPre : List Char := "preset:".data

/-- Action string `"cycle"`. -/
def cycleAct : List Char := "cycle".data

/-- `WLEDController.apply_action`, branch for branch from the source.  The
`color:` branch has no `try`, so a failing `int(_, 16)` escapes as an
uncaught `ValueError`; the `brightness:` and `preset:` branches catch
`ValueError` and log instead. -/
def apply_action (c : WLEDController) (action : List Char) : ApplyResult :=
  if action = onAct then
    { ctrl := c, events := [Event.post onTruePayload] }
  else if action = offAct then
    match c.daylight with
    | some d =>
      let r := d.stop
      { ctrl := { c with daylight := some r.1 }
        events := r.2 ++ [Event.post onFalsePayload] }
    | none => { ctrl := c, events := [Event.post onFalsePayload] }
  else if action = fullWhiteAct then
    match c.daylight with
    | some d =>
      let r := d.stop
      { ctrl := { c with daylight := some r.1 }
        events := r.2 ++ [Event.post fullWhitePayload] }
    | none => { ctrl := c, events := [Event.post fullWhitePayload] }
  else if action = daylightStartAct then
    match c.daylight with
    | some d =>
      let r := d.start
      { ctrl := { c with daylight := some r.1 }, events := r.2 }
    | none => { ctrl := c, events := [Event.warn notConfiguredMsg] }
  else if action = daylightStopAct then
    match c.daylight with
    | some d =>
      let r := d.stop
      { ctrl := { c with daylight := some r.1 }, events := r.2 }
    | none => { ctrl := c, events := [Event.warn notConfiguredMsg] }
  else if strStartsWith action colorPre then
    let hex_color := (afterFirstColon action).dropWhile (fun c => c = '#')
    if hex_color.length = 6 then
      match pyIntHex (hex_color.take 2), pyIntHex ((hex_color.drop 2).take 2),
            pyIntHex ((hex_color.drop 4).take 2) with
      | some r, some g, some b =>
        { ctrl := c, events := [Event.post (colorPayload r g b)] }
      | _, _, _ => { ctrl := c, events := [], err := some PyExn.valueError }
    else { ctrl := c, events := [Event.warn (invalidColorMsg ++ hex_color)] }
  else if strStartsWith action brightnessPre then
    match pyInt (afterFirstColon action) with
    | some v =>
      { ctrl := c, events := [Event.post (briPayload (max 0 (min 255 v)))] }
    | none =>
      { ctrl := c, events := [Event.warn (invalidBrightnessMsg ++ action)] }
  else if strStartsWith action presetPre then
    match pyInt (afterFirstColon action) with
    | some v => { ctrl := c, events := [Event.post (psPayload v)] }
    | none => { ctrl := c, events := [Event.warn (invalidPresetMsg ++ action)] }
  else if action = cycleAct then
    match c.pattern_presets with
    | [] => { ctrl := c, events := [Event.warn noPresetsMsg] }
    | _ :: _ =>
      let idx := (c.pattern_index + 1) % c.pattern_presets.length
      let preset_id := c.pattern_presets.getD idx 0
      { ctrl := { c with pattern_index := idx }
        events := [Event.post (psPayload preset_id),
                   Event.info (cycledMsg ++ (toString preset_id).data)] }
  else { ctrl := c, events := [Event.warn (unhandledMsg ++ action)] }

/-- Outcome of the network interaction of a single `post_state` call,
represented as data: the connection constructor can raise before a
connection exists, any later step (`request`, `getresponse`, `read`) can
raise after it exists, or a response with some status arrives. -/
inductive HttpOutcome where
  | connectFailure
  | transportError
  | response (status : Nat)
deriving DecidableEq, Repr

/-- Observable result of `WLEDClient.post_state`: the returned boolean, an
error-or-warning log flag, and whether a connection was opened and closed.
The function models the source's `try`/`except`/`finally` structure, so no
exception component is needed: every path returns a boolean. -/
structure PostResult where
  ok : Bool
  logged : Bool
  connOpened : Bool
  connClosed : Bool
deriving DecidableEq, Repr

/-- `WLEDClient.post_state`: POST the payload, drain the response, return
`True` exactly on a 2xx status; log and return `False` on a non-2xx status
or any raised transport error (`except Exception`); the `finally` block
closes the connection whenever one was created (a close failure, including
the constructor having raised before `conn` was bound, is swallowed). -/
def post_state (payload : StatePayload) (outcome : HttpOutcome) : PostResult :=
  match payload, outcome with
  | _, HttpOutcome.connectFailure =>
    { ok := false, logged := true, connOpened := false, connClosed := false }
  | _, HttpOutcome.transportError =>
    { ok := false, logged := true, connOpened := true, connClosed := true }
  | _, HttpOutcome.response s =>
    if s < 200 ∨ 300 ≤ s then
      { ok := false, logged := true, connOpened := true, connClosed := true }
    else
      { ok := true, logged := false, connOpened := true, connClosed := true }

/-- Python `int(x)` applied to a rational: truncation toward zero,
computed as the toward-zero division of the numerator by the denominator. -/
def ratTrunc (q : ℚ) : Int := q.num.tdiv (q.den : Int)

/-- `DaylightCycle._lerp`: `int(a + (b - a) * t)`. -/
def _lerp (a b : Int) (t : ℚ) : Int :=
  ratTrunc ((a : ℚ) + ((b : ℚ) - (a : ℚ)) * t)

/-- `DaylightCycle._lerp_color`: channel-wise interpolation. -/
def _lerp_color (c1 c2 : Color) (t : ℚ) : Color :=
  (_lerp c1.1 c2.1 t, _lerp c1.2.1 c2.2.1 t, _lerp c1.2.2 c2.2.2 t)

/-- The bracketing loop inside `DaylightCycle._get_sky_color`: scan the
sorted hour list, record each hour `≤ virtual_hour` as the lower bound, and
break at the first hour `≥ virtual_hour`, recording it as the upper bound. -/
def bracketLoop (virtual_hour : ℚ) : List Int → Int → Int → Int × Int
  | [], lower_h, upper_h => (lower_h, upper_h)
  | h :: rest, lower_h, upper_h =>
    let lower' := if (h : ℚ) ≤ virtual_hour then h else lower_h
    if (h : ℚ) ≥ virtual_hour then (lower', h)
    else bracketLoop virtual_hour rest lower' upper_h

/-- Keyframe-dictionary lookup `self.keyframes[h]`.  Call sites only look
up keys drawn from the dictionary, so the default is unreachable. -/
def lookupD (kf : List (Int × Color)) (h : Int) : Color :=
  (kf.lookup h).getD (0, 0, 0)

/-- `DaylightCycle._get_sky_color`, abstracted over `self.keyframes` (a
dictionary, modelled as an association list with distinct keys).
`hours = sorted(keyframes.keys())`; `lower_h`/`upper_h` start at
`hours[0]`/`hours[-1]` and are refined by the loop; equal bounds return the
stored color, otherwise the two stored colors are interpolated with
`t = (virtual_hour - lower_h) / (upper_h - lower_h)`.  An empty dictionary
makes `hours[0]` raise, modelled as `none`. -/
def _get_sky_color (keyframes : List (Int × Color)) (virtual_hour : ℚ) :
    Option Color :=
  match (keyframes.map Prod.fst).insertionSort (· ≤ ·) with
  | [] => none
  | h0 :: rest =>
    let p := bracketLoop virtual_hour (h0 :: rest) h0 ((h0 :: rest).getLastD h0)
    if p.1 = p.2 then some (lookupD keyframes p.1)
    else
      let t := (virtual_hour - (p.1 : ℚ)) / ((p.2 : ℚ) - (p.1 : ℚ))
      some (_lerp_color (lookupD keyframes p.1) (lookupD keyframes p.2) t)

/-- `DaylightCycle.DEFAULT_KEYFRAMES`. -/
def DEFAULT_KEYFRAMES : List (Int × Color) :=
  [(0, (40, 40, 100)),
   (5, (50, 50, 120)),
   (6, (255, 150, 80)),
   (8, (255, 220, 180)),
   (12, (255, 255, 240)),
   (16, (255, 240, 220)),
   (18, (255, 140, 60)),
   (20, (80, 60, 120)),
   (21, (60, 60, 130)),
   (24, (40, 40, 100))]

/-- Recognizer for device-post events, used to count device calls. -/
def isPostEvent : Event → Bool
  | Event.post _ => true
  | _ => false

/-- A running simulator fixture for concrete instantiations. -/
def dRun : DaylightCycle :=
  { led_count := 100, moon_start := 0, moon_length := 5, running := true }

/-- A controller fixture with presets and a running simulator. -/
def cRun : WLEDController :=
  { mapping := [], pattern_presets := [1, 2, 3], pattern_index := 0
    daylight := some dRun }

/-- C2: any input whose length is not 3, or whose first byte is not the
sentinel `0xFE`, or whose frame-type code (bits 7-6 of byte 1 unless an
override is supplied) is neither `0x02` nor `0x03`, is rejected: `decode`
returns `none`, never a fault and never a partially-populated result.  The
embedding is a total pure function, so decoding has no side effects. -/
theorem parse_rejects_malformed :
    (∀ (packet : List Int) (ct : Option Int), packet.length ≠ 3 →
        parse_tmcc_switch_or_accessory packet ct = none) ∧
    (∀ (b0 b1 b2 : Int) (ct : Option Int), b0 ≠ 0xFE →
        parse_tmcc_switch_or_accessory [b0, b1, b2] ct = none) ∧
    (∀ (b0 b1 b2 : Int) (ct : Option Int),
        ct.getD ((b1 / 64) % 4) ≠ 2 → ct.getD ((b1 / 64) % 4) ≠ 3 →
        parse_tmcc_switch_or_accessory [b0, b1, b2] ct = none) := by
  refine ⟨?_, ?_, ?_⟩
  · intro packet ct h
    match packet with
    | [] => rfl
    | [_] => rfl
    | [_, _] => rfl
    | [_, _, _] => simp at h
    | _ :: _ :: _ :: _ :: _ => rfl
  · intro b0 b1 b2 ct h
    simp only [parse_tmcc_switch_or_accessory, if_neg h]
  · intro b0 b1 b2 ct h2 h3
    cases ct with
    | none =>
      simp only [Option.getD_none] at h2 h3
      simp only [parse_tmcc_switch_or_accessory]
      split
      · simp [h2, h3]
      · rfl
    | some v =>
      simp only [Option.getD_some] at h2 h3
      simp only [parse_tmcc_switch_or_accessory]
      split
      · simp [h2, h3]
      · rfl

/-- C2 witness: concrete rejections through each arm of the theorem. -/
theorem parse_rejects_malformed_witness :
    parse_tmcc_switch_or_accessory [1, 2] none = none ∧
    parse_tmcc_switch_or_accessory [0, 192, 0] none = none ∧
    parse_tmcc_switch_or_accessory [0xFE, 0, 0] none = none :=
  ⟨parse_rejects_malformed.1 [1, 2] none (by decide),
   parse_rejects_malformed.2.1 0 192 0 none (by decide),
   parse_rejects_malformed.2.2 0xFE 0 0 none (by decide) (by decide)⟩

/-- C4: every accepted frame carries
`address = ((b1 & 0x3F) << 1) | ((b2 & 0x80) >> 7)`,
`cmd_field = (b2 & 0x60) >> 5` and `data_field = b2 & 0x1F` (written in the
`%`/`/` translation of the bit operations), and the two concrete frames of
the claim decode to `address=0, cmd_field=0, data_field=0` and
`address=3, cmd_field=0, data_field=5`, both with accessory type `0x03`. -/
theorem parse_field_formulas :
    (∀ (b0 b1 b2 : Int) (ct : Option Int) (r : ParsedFrame),
        parse_tmcc_switch_or_accessory [b0, b1, b2] ct = some r →
        r.address = (b1 % 64) * 2 + (b2 / 128) % 2 ∧
        r.cmd_field = (b2 / 32) % 4 ∧ r.data_field = b2 % 32) ∧
    parse_tmcc_switch_or_accessory [0xFE, 0b11000000, 0b00000000] none =
      some { address := 0, cmd_field := 0, data_field := 0, cmd_type := 3 } ∧
    parse_tmcc_switch_or_accessory [0xFE, 0b11000001, 0b10000101] none =
      some { address := 3, cmd_field := 0, data_field := 5, cmd_type := 3 } := by
  refine ⟨?_, by decide, by decide⟩
  intro b0 b1 b2 ct r h
  simp only [parse_tmcc_switch_or_accessory] at h
  split at h
  · split at h
    · cases h
      exact ⟨rfl, rfl, rfl⟩
    · cases h
  · cases h

/-- C4 witness: the formulas instantiated on the first concrete frame. -/
theorem parse_field_formulas_witness :
    (⟨0, 0, 0, 3⟩ : ParsedFrame).address =
      ((192 : Int) % 64) * 2 + ((0 : Int) / 128) % 2 ∧
    (⟨0, 0, 0, 3⟩ : ParsedFrame).cmd_field = ((0 : Int) / 32) % 4 ∧
    (⟨0, 0, 0, 3⟩ : ParsedFrame).data_field = (0 : Int) % 32 :=
  parse_field_formulas.1 0xFE 192 0 none ⟨0, 0, 0, 3⟩ (by decide)

/-- C9: the masking in the derived-field formulas bounds every accepted
result, even for input integers outside the byte range: `0 ≤ address ≤ 127`,
`0 ≤ cmd_field ≤ 3`, `0 ≤ data_field ≤ 31` and `cmd_type ∈ {2, 3}`. -/
theorem parse_field_bounds (packet : List Int) (ct : Option Int) (r : ParsedFrame)
    (h : parse_tmcc_switch_or_accessory packet ct = some r) :
    0 ≤ r.address ∧ r.address ≤ 127 ∧ 0 ≤ r.cmd_field ∧ r.cmd_field ≤ 3 ∧
    0 ≤ r.data_field ∧ r.data_field ≤ 31 ∧ (r.cmd_type = 2 ∨ r.cmd_type = 3) := by
  match packet with
  | [] => cases h
  | [_] => cases h
  | [_, _] => cases h
  | _ :: _ :: _ :: _ :: _ => cases h
  | [b0, b1, b2] =>
    simp only [parse_tmcc_switch_or_accessory] at h
    split at h
    · split at h
      · cases h
        rename_i hct
        refine ⟨?_, ?_, ?_, ?_, ?_, ?_, ?_⟩ <;> simp only <;> omega
      · cases h
    · cases h

/-- C9 witness: the bounds instantiated on an accepted frame whose second
byte lies far outside 0..255. -/
theorem parse_field_bounds_witness :
    0 ≤ (⟨126, 0, 0, 3⟩ : ParsedFrame).address ∧
    (⟨126, 0, 0, 3⟩ : ParsedFrame).address ≤ 127 ∧
    0 ≤ (⟨126, 0, 0, 3⟩ : ParsedFrame).cmd_field ∧
    (⟨126, 0, 0, 3⟩ : ParsedFrame).cmd_field ≤ 3 ∧
    0 ≤ (⟨126, 0, 0, 3⟩ : ParsedFrame).data_field ∧
    (⟨126, 0, 0, 3⟩ : ParsedFrame).data_field ≤ 31 ∧
    ((⟨126, 0, 0, 3⟩ : ParsedFrame).cmd_type = 2 ∨
      (⟨126, 0, 0, 3⟩ : ParsedFrame).cmd_type = 3) :=
  parse_field_bounds [0xFE, 0b11111111, 1024] none ⟨126, 0, 0, 3⟩ (by decide)

/-- C1, code evaluated at the failing input: dispatching the color action
`"color:zzzzzz"` — whose argument after stripping `#` is a 6-character
string that is not valid hexadecimal — raises an uncaught `ValueError`
from `int("zz", 16)`, with no device call but also no log call and no
normal return, whatever the controller state.  The `color:` branch of the
source has no `try`/`except` around the `int` conversions, unlike the
`brightness:` and `preset:` branches, so the claimed log-and-drop
behaviour does not occur. -/
theorem color_invalid_hex_raises (c : WLEDController) :
    apply_action c ("color:zzzzzz".data) =
      { ctrl := c, events := [], err := some PyExn.valueError } := by
  rfl

/-- C3: on a controller with a configured, running simulator, the `off`
action performs the `_running = False` transition of `DaylightCycle.stop`
(event `simStop`) strictly before posting `{on: false}`, and the simulator
configured on the resulting controller is stopped. -/
theorem off_stops_simulator_before_post (c : WLEDController) (d : DaylightCycle)
    (hd : c.daylight = some d) (hr : d.running = true) :
    ∃ i j, i < j ∧
      (apply_action c offAct).events.get? i = some Event.simStop ∧
      (apply_action c offAct).events.get? j = some (Event.post onFalsePayload) ∧
      ∃ d2, (apply_action c offAct).ctrl.daylight = some d2 ∧ d2.running = false := by
  obtain ⟨m, pp, pi, dl⟩ := c
  simp only at hd
  subst hd
  exact ⟨0, 2, by omega, rfl, rfl, { d with running := false }, rfl, rfl⟩

/-- C3 witness: the ordering instantiated on a concrete controller with a
configured, running simulator. -/
theorem off_stops_simulator_before_post_witness :
    ∃ i j, i < j ∧
      (apply_action cRun offAct).events.get? i = some Event.simStop ∧
      (apply_action cRun offAct).events.get? j = some (Event.post onFalsePayload) ∧
      ∃ d2, (apply_action cRun offAct).ctrl.daylight = some d2 ∧ d2.running = false :=
  off_stops_simulator_before_post cRun dRun (by decide) (by decide)

/-- C6: `post_state` always returns a boolean (the model is a total
function, mirroring the `try`/`except`/`finally` of the source, so no
exception reaches the caller); the result is `true` exactly when a
response with a 2xx status was received; every `false` result is logged;
and the connection is closed exactly when one was opened, on every path. -/
theorem post_state_boolean_contract (payload : StatePayload) (outcome : HttpOutcome) :
    ((post_state payload outcome).ok = true ↔
      ∃ s, outcome = HttpOutcome.response s ∧ 200 ≤ s ∧ s < 300) ∧
    ((post_state payload outcome).ok = false →
      (post_state payload outcome).logged = true) ∧
    (post_state payload outcome).connClosed = (post_state payload outcome).connOpened := by
  cases outcome with
  | connectFailure => simp [post_state]
  | transportError => simp [post_state]
  | response s =>
    by_cases h : s < 200 ∨ 300 ≤ s
    · refine ⟨?_, ?_, ?_⟩
      · rw [show post_state payload (HttpOutcome.response s) =
            { ok := false, logged := true, connOpened := true, connClosed := true } from by
          simp [post_state, h]]
        simp only [Bool.false_eq_true, false_iff]
        rintro ⟨s2, heq, hlo, hhi⟩
        cases heq
        omega
      · intro _
        simp [post_state, h]
      · simp [post_state, h]
    · refine ⟨?_, ?_, ?_⟩
      · rw [show post_state payload (HttpOutcome.response s) =
            { ok := true, logged := false, connOpened := true, connClosed := true } from by
          simp [post_state, h]]
        simp only [true_iff]
        exact ⟨s, rfl, by omega, by omega⟩
      · intro hok
        rw [show post_state payload (HttpOutcome.response s) =
            { ok := true, logged := false, connOpened := true, connClosed := true } from by
          simp [post_state, h]] at hok
        cases hok
      · simp [post_state, h]

/-- C6 witness: the contract instantiated on a 204 response. -/
theorem post_state_boolean_contract_witness :
    ((post_state onTruePayload (HttpOutcome.response 204)).ok = true ↔
      ∃ s, HttpOutcome.response 204 = HttpOutcome.response s ∧ 200 ≤ s ∧ s < 300) ∧
    ((post_state onTruePayload (HttpOutcome.response 204)).ok = false →
      (post_state onTruePayload (HttpOutcome.response 204)).logged = true) ∧
    (post_state onTruePayload (HttpOutcome.response 204)).connClosed =
      (post_state onTruePayload (HttpOutcome.response 204)).connOpened :=
  post_state_boolean_contract onTruePayload (HttpOutcome.response 204)

/-- C7: the cycle action with an empty preset list only warns (zero device
calls) and leaves the controller unchanged; with a non-empty list of
length `n` and cursor `i` it sets the cursor to `(i + 1) % n` and emits
exactly one post, carrying the preset id stored at the new cursor
position; and no other action mutates the cursor. -/
theorem cycle_preset_cursor (c : WLEDController) :
    (c.pattern_presets = [] →
      apply_action c cycleAct = { ctrl := c, events := [Event.warn noPresetsMsg] }) ∧
    (c.pattern_presets ≠ [] →
      (apply_action c cycleAct).ctrl =
          { c with pattern_index := (c.pattern_index + 1) % c.pattern_presets.length } ∧
      (apply_action c cycleAct).events =
        [Event.post (psPayload (c.pattern_presets.getD
            ((c.pattern_index + 1) % c.pattern_presets.length) 0)),
         Event.info (cycledMsg ++ (toString (c.pattern_presets.getD
            ((c.pattern_index + 1) % c.pattern_presets.length) 0)).data)]) ∧
    (∀ action : List Char, action ≠ cycleAct →
      (apply_action c action).ctrl.pattern_index = c.pattern_index) := by
  refine ⟨?_, ?_, ?_⟩
  · intro h
    obtain ⟨m, pp, pi, dl⟩ := c
    simp only at h
    subst h
    rfl
  · intro h
    obtain ⟨m, pp, pi, dl⟩ := c
    simp only at h ⊢
    match pp, h with
    | p :: rest, _ => exact ⟨rfl, rfl⟩
  · intro action hne
    simp only [apply_action]
    split_ifs with h1 h2 h3 h4 h5 h6 h7 h8 h9
    · rfl
    · cases c.daylight <;> rfl
    · cases c.daylight <;> rfl
    · cases c.daylight <;> rfl
    · cases c.daylight <;> rfl
    · cases pyIntHex ((((afterFirstColon action).dropWhile (fun x => x = '#')).take 2)) <;>
        cases pyIntHex ((((afterFirstColon action).dropWhile (fun x => x = '#')).drop 2).take 2) <;>
        cases pyIntHex ((((afterFirstColon action).dropWhile (fun x => x = '#')).drop 4).take 2) <;>
        rfl
    · rfl
    · cases pyInt (afterFirstColon action) <;> rfl
    · cases pyInt (afterFirstColon action) <;> rfl
    · rfl

/-- C7 witness: each arm instantiated concretely — an empty-preset
controller warns without posting, the fixture controller advances its
cursor from 0 to 1 and posts preset id 2, and the `on` action leaves the
cursor alone. -/
theorem cycle_preset_cursor_witness :
    apply_action { mapping := [], pattern_presets := [], pattern_index := 0, daylight := none }
        cycleAct =
      { ctrl := { mapping := [], pattern_presets := [], pattern_index := 0, daylight := none }
        events := [Event.warn noPresetsMsg] } ∧
    (apply_action cRun cycleAct).ctrl = { cRun with pattern_index := 1 } ∧
    (apply_action cRun onAct).ctrl.pattern_index = cRun.pattern_index :=
  ⟨(cycle_preset_cursor _).1 rfl,
   by
    have h := ((cycle_preset_cursor cRun).2.1 (by decide)).1
    rw [h]
    rfl,
   (cycle_preset_cursor cRun).2.2 onAct (by decide)⟩

/-- C8: a brightness action posts the parsed integer clamped into
`[0, 255]` (in particular `"brightness:999"` posts exactly 255), and a
non-numeric argument issues zero device calls and logs a warning. -/
theorem brightness_clamped (c : WLEDController) (s : List Char) :
    (∀ v : Int, pyInt s = some v →
      apply_action c (brightnessPre ++ s) =
        { ctrl := c, events := [Event.post (briPayload (max 0 (min 255 v)))] }) ∧
    (pyInt s = none →
      apply_action c (brightnessPre ++ s) =
        { ctrl := c
          events := [Event.warn (invalidBrightnessMsg ++ (brightnessPre ++ s))] }) ∧
    apply_action c (brightnessPre ++ ("999".data)) =
      { ctrl := c, events := [Event.post (briPayload 255)] } := by
  refine ⟨?_, ?_, rfl⟩
  · intro v hv
    simp only [apply_action, brightnessPre, onAct, offAct, fullWhiteAct, daylightStartAct,
      daylightStopAct, colorPre, presetPre, cycleAct, strStartsWith, afterFirstColon]
    simp [hv]
  · intro hv
    simp only [apply_action, brightnessPre, onAct, offAct, fullWhiteAct, daylightStartAct,
      daylightStopAct, colorPre, presetPre, cycleAct, strStartsWith, afterFirstColon]
    simp [hv]

/-- C8 witness: the clamp arm applied at `"brightness:999"` and the warn
arm at the non-numeric `"brightness:abc"`. -/
theorem brightness_clamped_witness :
    apply_action cRun (brightnessPre ++ ("999".data)) =
      { ctrl := cRun, events := [Event.post (briPayload (max 0 (min 255 999)))] } ∧
    apply_action cRun (brightnessPre ++ ("abc".data)) =
      { ctrl := cRun
        events := [Event.warn (invalidBrightnessMsg ++ (brightnessPre ++ ("abc".data)))] } :=
  ⟨(brightness_clamped cRun ("999".data)).1 999 (by decide),
   (brightness_clamped cRun ("abc".data)).2.1 (by decide)⟩

/-- C10: constructing a controller with the daylight-enable flag set
starts the simulator inside the constructor: the constructor trace
contains exactly one device post, namely the baseline full-strip payload,
and the configured simulator is running when the constructor returns.  The
trace is produced by `__init__` alone — no `apply_action` dispatch (in
particular no `daylight_start` action) is involved. -/
theorem init_daylight_autostarts (mapping : List ((Int × Int) × List Char))
    (pattern_presets : Option (List Int)) (led_count moon_start moon_length : Int) :
    (WLEDController.init mapping pattern_presets true
        led_count moon_start moon_length).2 =
      [Event.post (daylightInitPayload led_count), Event.info startedMsg] ∧
    ((WLEDController.init mapping pattern_presets true
        led_count moon_start moon_length).2.filter isPostEvent) =
      [Event.post (daylightInitPayload led_count)] ∧
    ∃ d, (WLEDController.init mapping pattern_presets true
        led_count moon_start moon_length).1.daylight = some d ∧ d.running = true :=
  ⟨rfl, rfl,
   ⟨{ led_count := led_count, moon_start := moon_start, moon_length := moon_length
      running := true }, rfl, rfl⟩⟩

/-- The defaulted last element of a list is a member of the list extended
by the default. -/
theorem getLastD_mem_cons (l : List Int) (a : Int) : l.getLastD a ∈ a :: l := by
  induction l generalizing a with
  | nil => exact List.mem_cons_self a []
  | cons b rest ih =>
    rw [List.getLastD_cons]
    exact List.mem_cons_of_mem _ (ih b)

/-- Characterization of the bracketing loop on a strictly sorted hour
list whose running lower bound is already below the target hour: the
returned lower bound is the greatest hour at most the target (or the
initial lower bound when none is), and — whenever some hour is at least
the target — the returned upper bound is the least such hour. -/
theorem bracketLoop_spec (vh : ℚ) (l : List Int) (lower upper : Int)
    (hs : l.Sorted (· < ·)) (hl : (lower : ℚ) ≤ vh) :
    ((bracketLoop vh l lower upper).1 = lower ∨ (bracketLoop vh l lower upper).1 ∈ l) ∧
    ((bracketLoop vh l lower upper).1 : ℚ) ≤ vh ∧
    (∀ k ∈ l, (k : ℚ) ≤ vh → k ≤ (bracketLoop vh l lower upper).1) ∧
    ((∃ k ∈ l, vh ≤ (k : ℚ)) →
      (bracketLoop vh l lower upper).2 ∈ l ∧
      vh ≤ ((bracketLoop vh l lower upper).2 : ℚ) ∧
      ∀ k ∈ l, vh ≤ (k : ℚ) → (bracketLoop vh l lower upper).2 ≤ k) := by
  induction l generalizing lower with
  | nil =>
    refine ⟨Or.inl rfl, hl, by simp, ?_⟩
    rintro ⟨k, hk, -⟩
    cases hk
  | cons h rest ih =>
    rw [List.sorted_cons] at hs
    obtain ⟨hlt, hrest⟩ := hs
    by_cases hge : (h : ℚ) ≥ vh
    · by_cases hle : (h : ℚ) ≤ vh
      · have hcast : (h : ℚ) = vh := le_antisymm hle hge
        have hred : bracketLoop vh (h :: rest) lower upper = (h, h) := by
          simp [bracketLoop, hle, hge]
        rw [hred]
        refine ⟨Or.inr (List.mem_cons_self _ _), hle, ?_, ?_⟩
        · intro k hk hkle
          rcases List.mem_cons.mp hk with rfl | hk2
          · exact le_refl _
          · have hq : (k : ℚ) ≤ (h : ℚ) := hcast ▸ hkle
            exact_mod_cast hq
        · intro _
          refine ⟨List.mem_cons_self _ _, hge, ?_⟩
          intro k hk _
          rcases List.mem_cons.mp hk with rfl | hk2
          · exact le_refl _
          · exact le_of_lt (hlt k hk2)
      · have hred : bracketLoop vh (h :: rest) lower upper = (lower, h) := by
          simp [bracketLoop, hle, hge]
        rw [hred]
        refine ⟨Or.inl rfl, hl, ?_, ?_⟩
        · intro k hk hkle
          rcases List.mem_cons.mp hk with rfl | hk2
          · exact absurd hkle hle
          · exfalso
            have h1 : (h : ℚ) < (k : ℚ) := by exact_mod_cast hlt k hk2
            have h2 : vh < (h : ℚ) := not_le.mp hle
            exact absurd hkle (not_le.mpr (h2.trans h1))
        · intro _
          refine ⟨List.mem_cons_self _ _, hge, ?_⟩
          intro k hk _
          rcases List.mem_cons.mp hk with rfl | hk2
          · exact le_refl _
          · exact le_of_lt (hlt k hk2)
    · have hlt2 : (h : ℚ) < vh := not_le.mp hge
      have hle : (h : ℚ) ≤ vh := le_of_lt hlt2
      have hred : bracketLoop vh (h :: rest) lower upper = bracketLoop vh rest h upper := by
        simp [bracketLoop, hle, hge]
      rw [hred]
      obtain ⟨ih1, ih2, ih3, ih4⟩ := ih h hrest hle
      refine ⟨?_, ih2, ?_, ?_⟩
      · rcases ih1 with he | hm
        · exact Or.inr (by rw [he]; exact List.mem_cons_self _ _)
        · exact Or.inr (List.mem_cons_of_mem _ hm)
      · intro k hk hkle
        rcases List.mem_cons.mp hk with rfl | hk2
        · rcases ih1 with he | hm
          · exact le_of_eq he.symm
          · exact le_of_lt (hlt _ hm)
        · exact ih3 k hk2 hkle
      · rintro ⟨k, hk, hkge⟩
        rcases List.mem_cons.mp hk with rfl | hk2
        · exact absurd hkge (not_le.mpr hlt2)
        · obtain ⟨m1, m2, m3⟩ := ih4 ⟨k, hk2, hkge⟩
          refine ⟨List.mem_cons_of_mem _ m1, m2, ?_⟩
          intro k2 hk2b hge2
          rcases List.mem_cons.mp hk2b with rfl | hk3
          · exact absurd hge2 (not_le.mpr hlt2)
          · exact m3 k2 hk3 hge2

/-- The default of `getLastD` is irrelevant on a nonempty list. -/
theorem getLastD_irrel (l : List Int) (hne : l ≠ []) (d1 d2 : Int) :
    l.getLastD d1 = l.getLastD d2 := by
  cases l with
  | nil => exact absurd rfl hne
  | cons a rest => rw [List.getLastD_cons, List.getLastD_cons]

/-- In a strictly sorted list the defaulted head is a lower bound of the
members. -/
theorem sorted_headD_le_of_mem (l : List Int) (hs : l.Sorted (· < ·)) (k : Int)
    (hk : k ∈ l) : l.headD 0 ≤ k := by
  cases l with
  | nil => cases hk
  | cons a rest =>
    rw [List.sorted_cons] at hs
    rcases List.mem_cons.mp hk with rfl | hk2
    · exact le_refl _
    · exact le_of_lt (hs.1 k hk2)

/-- In a strictly sorted list the defaulted last element is an upper bound
of the members. -/
theorem sorted_le_getLastD_of_mem (l : List Int) (hs : l.Sorted (· < ·)) :
    ∀ k ∈ l, k ≤ l.getLastD 0 := by
  induction l with
  | nil => intro k hk; cases hk
  | cons a rest ih =>
    rw [List.sorted_cons] at hs
    intro k hk
    rw [List.getLastD_cons]
    cases rest with
    | nil =>
      rcases List.mem_cons.mp hk with rfl | h2
      · simp [List.getLastD]
      · cases h2
    | cons b rest2 =>
      have hirr : (b :: rest2).getLastD a = (b :: rest2).getLastD 0 :=
        getLastD_irrel _ (by simp) a 0
      rw [hirr]
      rcases List.mem_cons.mp hk with rfl | h2
      · exact le_of_lt (lt_of_lt_of_le (hs.1 b (List.mem_cons_self _ _))
          (ih hs.2 b (List.mem_cons_self _ _)))
      · exact ih hs.2 k h2

/-- Association-list lookup finds the stored value when the keys are
distinct, matching dictionary indexing. -/
theorem lookup_eq_of_mem (kf : List (Int × Color)) (h : Int) (c : Color)
    (hnd : (kf.map Prod.fst).Nodup) (hmem : (h, c) ∈ kf) : kf.lookup h = some c := by
  induction kf with
  | nil => cases hmem
  | cons p rest ih =>
    obtain ⟨k, v⟩ := p
    rw [List.map_cons, List.nodup_cons] at hnd
    rcases List.mem_cons.mp hmem with heq | hm
    · cases heq
      simp [List.lookup_cons]
    · have hne : (h == k) = false := by
        rw [beq_eq_false_iff_ne]
        rintro rfl
        exact hnd.1 (List.mem_map.mpr ⟨(h, c), hm, rfl⟩)
      simp only [List.lookup_cons, hne]
      exact ih hnd.2 hm

/-- Reduction of `_get_sky_color` for a table whose keys are already
sorted: sorting is the identity and the result is determined by the
bracketing loop started at the first and last key. -/
theorem get_sky_color_eq (kf : List (Int × Color)) (vh : ℚ) (h0 : Int) (rest : List Int)
    (hkeys : kf.map Prod.fst = h0 :: rest)
    (hs : (kf.map Prod.fst).Sorted (· < ·)) :
    _get_sky_color kf vh =
      (let p := bracketLoop vh (h0 :: rest) h0 ((h0 :: rest).getLastD h0)
       if p.1 = p.2 then some (lookupD kf p.1)
       else some (_lerp_color (lookupD kf p.1) (lookupD kf p.2)
         ((vh - (p.1 : ℚ)) / ((p.2 : ℚ) - (p.1 : ℚ))))) := by
  have hsort : (kf.map Prod.fst).insertionSort (· ≤ ·) = h0 :: rest := by
    rw [List.Sorted.insertionSort_eq (List.Pairwise.imp (fun hab => le_of_lt hab) hs), hkeys]
  simp only [_get_sky_color, hsort]

/-- General bracketing property of `_get_sky_color` on a sorted keyframe
table for a target hour within the keyed range. -/
theorem sky_color_bracket_general (kf : List (Int × Color)) (vh : ℚ)
    (hs : (kf.map Prod.fst).Sorted (· < ·)) (hne : kf ≠ [])
    (hhead : (((kf.map Prod.fst).headD 0 : Int) : ℚ) ≤ vh)
    (hlast : vh ≤ (((kf.map Prod.fst).getLastD 0 : Int) : ℚ)) :
    ∃ lo hi, lo ∈ kf.map Prod.fst ∧ hi ∈ kf.map Prod.fst ∧
      ((lo : Int) : ℚ) ≤ vh ∧ vh ≤ ((hi : Int) : ℚ) ∧
      (∀ k ∈ kf.map Prod.fst, ((k : Int) : ℚ) ≤ vh → k ≤ lo) ∧
      (∀ k ∈ kf.map Prod.fst, vh ≤ ((k : Int) : ℚ) → hi ≤ k) ∧
      _get_sky_color kf vh =
        some (if lo = hi then lookupD kf lo
          else _lerp_color (lookupD kf lo) (lookupD kf hi)
            ((vh - ((lo : Int) : ℚ)) / (((hi : Int) : ℚ) - ((lo : Int) : ℚ)))) := by
  obtain ⟨h0, rest, hkeys⟩ : ∃ a l, kf.map Prod.fst = a :: l := by
    cases hk : kf.map Prod.fst with
    | nil => exact absurd (List.map_eq_nil_iff.mp hk) hne
    | cons a l => exact ⟨a, l, rfl⟩
  have hs2 : (h0 :: rest).Sorted (· < ·) := by rw [hkeys] at hs; exact hs
  have hhead2 : ((h0 : Int) : ℚ) ≤ vh := by
    rw [hkeys] at hhead
    simpa using hhead
  have hlast2 : vh ≤ (((h0 :: rest).getLastD h0 : Int) : ℚ) := by
    rw [hkeys, List.getLastD_cons] at hlast
    rw [List.getLastD_cons]
    exact hlast
  obtain ⟨b1, b2, b3, b4⟩ :=
    bracketLoop_spec vh (h0 :: rest) h0 ((h0 :: rest).getLastD h0) hs2 hhead2
  have hex : ∃ k ∈ (h0 :: rest), vh ≤ ((k : Int) : ℚ) := by
    refine ⟨(h0 :: rest).getLastD h0, ?_, hlast2⟩
    rw [List.getLastD_cons]
    exact getLastD_mem_cons rest h0
  obtain ⟨c1, c2, c3⟩ := b4 hex
  refine ⟨(bracketLoop vh (h0 :: rest) h0 ((h0 :: rest).getLastD h0)).1,
          (bracketLoop vh (h0 :: rest) h0 ((h0 :: rest).getLastD h0)).2,
          ?_, ?_, b2, c2, ?_, ?_, ?_⟩
  · rw [hkeys]
    rcases b1 with he | hm
    · rw [he]; exact List.mem_cons_self _ _
    · exact hm
  · rw [hkeys]; exact c1
  · rw [hkeys]; exact b3
  · rw [hkeys]; exact c3
  · rw [get_sky_color_eq kf vh h0 rest hkeys hs]
    exact (apply_ite some _ _ _).symm

/-- A virtual hour equal to a keyframe hour resolves to exactly the stored
color of that keyframe. -/
theorem sky_color_at_keyframe (kf : List (Int × Color)) (h : Int) (c : Color)
    (hs : (kf.map Prod.fst).Sorted (· < ·)) (hmem : (h, c) ∈ kf) :
    _get_sky_color kf ((h : Int) : ℚ) = some c := by
  have hkmem : h ∈ kf.map Prod.fst := List.mem_map.mpr ⟨(h, c), hmem, rfl⟩
  have hne : kf ≠ [] := by rintro rfl; cases hmem
  have hhead : (((kf.map Prod.fst).headD 0 : Int) : ℚ) ≤ ((h : Int) : ℚ) := by
    exact_mod_cast sorted_headD_le_of_mem (kf.map Prod.fst) hs h hkmem
  have hlast : ((h : Int) : ℚ) ≤ (((kf.map Prod.fst).getLastD 0 : Int) : ℚ) := by
    exact_mod_cast sorted_le_getLastD_of_mem (kf.map Prod.fst) hs h hkmem
  obtain ⟨lo, hi, hlomem, hhimem, hlole, hhige, hlomax, hhimin, heq⟩ :=
    sky_color_bracket_general kf ((h : Int) : ℚ) hs hne hhead hlast
  have hlo : lo = h := by
    have h1 : h ≤ lo := hlomax h hkmem (le_refl _)
    have h2 : lo ≤ h := by exact_mod_cast hlole
    omega
  have hhi : hi = h := by
    have h1 : hi ≤ h := hhimin h hkmem (le_refl _)
    have h2 : h ≤ hi := by exact_mod_cast hhige
    omega
  rw [heq, hlo, hhi, if_pos rfl]
  have hnd : (kf.map Prod.fst).Nodup := List.Pairwise.imp (fun hab => ne_of_lt hab) hs
  simp [lookupD, lookup_eq_of_mem kf h c hnd hmem]

/-- C5: on every sorted keyframe table and every virtual hour within the
keyed range, the resolved sky color is determined by the greatest keyframe
hour at most the hour and the least keyframe hour at least it; when the two
bounds coincide the stored color is returned exactly (in particular any
hour equal to a keyframe hour returns that keyframe color with no drift),
otherwise each channel is interpolated linearly with
`t = (virtualHour - lowerHour) / (upperHour - lowerHour)` and truncated
toward zero; and on the default table hour 24 resolves to the same color
as hour 0, namely the stored midnight color. -/
theorem sky_color_resolution :
    (∀ (kf : List (Int × Color)) (vh : ℚ),
      (kf.map Prod.fst).Sorted (· < ·) → kf ≠ [] →
      (((kf.map Prod.fst).headD 0 : Int) : ℚ) ≤ vh →
      vh ≤ (((kf.map Prod.fst).getLastD 0 : Int) : ℚ) →
      ∃ lo hi, lo ∈ kf.map Prod.fst ∧ hi ∈ kf.map Prod.fst ∧
        ((lo : Int) : ℚ) ≤ vh ∧ vh ≤ ((hi : Int) : ℚ) ∧
        (∀ k ∈ kf.map Prod.fst, ((k : Int) : ℚ) ≤ vh → k ≤ lo) ∧
        (∀ k ∈ kf.map Prod.fst, vh ≤ ((k : Int) : ℚ) → hi ≤ k) ∧
        _get_sky_color kf vh =
          some (if lo = hi then lookupD kf lo
            else _lerp_color (lookupD kf lo) (lookupD kf hi)
              ((vh - ((lo : Int) : ℚ)) / (((hi : Int) : ℚ) - ((lo : Int) : ℚ))))) ∧
    (∀ (kf : List (Int × Color)) (h : Int) (c : Color),
      (kf.map Prod.fst).Sorted (· < ·) → (h, c) ∈ kf →
      _get_sky_color kf ((h : Int) : ℚ) = some c) ∧
    _get_sky_color DEFAULT_KEYFRAMES 24 = _get_sky_color DEFAULT_KEYFRAMES 0 ∧
    _get_sky_color DEFAULT_KEYFRAMES 24 = some (40, 40, 100) :=
  ⟨fun kf vh hs hne hh hl => sky_color_bracket_general kf vh hs hne hh hl,
   fun kf h c hs hmem => sky_color_at_keyframe kf h c hs hmem,
   by decide, by decide⟩

/-- C5 witness: the bracketing arm instantiated on the default table at
hour 7, and the exact-hit arm at keyframe hour 6. -/
theorem sky_color_resolution_witness :
    (∃ lo hi, lo ∈ DEFAULT_KEYFRAMES.map Prod.fst ∧ hi ∈ DEFAULT_KEYFRAMES.map Prod.fst ∧
      ((lo : Int) : ℚ) ≤ 7 ∧ (7 : ℚ) ≤ ((hi : Int) : ℚ) ∧
      (∀ k ∈ DEFAULT_KEYFRAMES.map Prod.fst, ((k : Int) : ℚ) ≤ 7 → k ≤ lo) ∧
      (∀ k ∈ DEFAULT_KEYFRAMES.map Prod.fst, (7 : ℚ) ≤ ((k : Int) : ℚ) → hi ≤ k) ∧
      _get_sky_color DEFAULT_KEYFRAMES 7 =
        some (if lo = hi then lookupD DEFAULT_KEYFRAMES lo
          else _lerp_color (lookupD DEFAULT_KEYFRAMES lo) (lookupD DEFAULT_KEYFRAMES hi)
            (((7 : ℚ) - ((lo : Int) : ℚ)) / (((hi : Int) : ℚ) - ((lo : Int) : ℚ))))) ∧
    _get_sky_color DEFAULT_KEYFRAMES ((6 : Int) : ℚ) = some (255, 150, 80) :=
  ⟨sky_color_resolution.1 DEFAULT_KEYFRAMES 7 (by decide) (by decide) (by decide) (by decide),
   sky_color_resolution.2.1 DEFAULT_KEYFRAMES 6 (255, 150, 80) (by decide) (by decide)⟩
